import Mathlib

/-!
Verification development for `room/analyze_scan.py`.

The script is a single-pass batch analysis of a 3-D scan: it loads OBJ
vertex lines, computes the room frame (six axis extrema), segments the
cloud into 11 heuristic regions, derives measurements, and assembles a
report with diagnostics (histograms, density grid, horizontal slices).

Modelling conventions:
* Python/numpy floating point arithmetic is modelled by exact rationals;
* numpy boolean-mask filtering is `List.filter` over the vertex list;
* Python `int()` (truncation toward zero) is `pyInt`;
* code paths that raise (`ValueError`, `IndexError`) return `Except PyErr`;
* the hard-coded physical constants and tolerance margins of the script
  are collected into `HeuristicConfig`, whose default values are exactly
  the literals of the source; `main`'s behaviour is the default config.
-/

attribute [local semireducible] Rat.add Rat.mul Rat.inv Rat.sub Rat.ofScientific

/-- A parsed OBJ vertex: `(x, y, z)` in meters (width, height, depth). -/
structure Vertex where
  x : ℚ
  y : ℚ
  z : ℚ
deriving DecidableEq, Repr

/-- Numpy `arr.min()` over a column, as used on the nonempty vertex array.
The `[]` case returns a junk value `0`; the script never reaches it because
an empty array aborts `main` before any reduction (see `mainResult`). -/
def npMin : List ℚ → ℚ
  | [] => 0
  | h :: t => t.foldl min h

/-- Numpy `arr.max()` over a column (same convention as `npMin`). -/
def npMax : List ℚ → ℚ
  | [] => 0
  | h :: t => t.foldl max h

/-- Numpy `arr.mean()` over a column: sum divided by length. -/
def npMean (l : List ℚ) : ℚ := l.sum / l.length

/-- Python `int()` applied to a real quantity: truncation toward zero. -/
def pyInt (q : ℚ) : ℤ := if 0 ≤ q then ⌊q⌋ else -⌊-q⌋

/-- The six reference planes computed at the top of `main`. -/
structure RoomFrame where
  floor_y : ℚ
  ceiling_y : ℚ
  front_z : ℚ
  back_z : ℚ
  left_x : ℚ
  right_x : ℚ
deriving DecidableEq, Repr

/-- The frame computation of `main` (lines 77-82 of the script):
global min/max of each coordinate column. -/
def roomFrame (vertices : List Vertex) : RoomFrame :=
  { floor_y := npMin (vertices.map Vertex.y)
    ceiling_y := npMax (vertices.map Vertex.y)
    front_z := npMin (vertices.map Vertex.z)
    back_z := npMax (vertices.map Vertex.z)
    left_x := npMin (vertices.map Vertex.x)
    right_x := npMax (vertices.map Vertex.x) }

theorem foldlMin_le_acc (t : List ℚ) : ∀ acc : ℚ, t.foldl min acc ≤ acc := by
  induction t with
  | nil => intro acc; exact le_refl acc
  | cons a t ih =>
    intro acc
    calc (a :: t).foldl min acc = t.foldl min (min acc a) := rfl
    _ ≤ min acc a := ih (min acc a)
    _ ≤ acc := min_le_left _ _

theorem foldlMin_le_mem (t : List ℚ) : ∀ (acc a : ℚ), a ∈ t → t.foldl min acc ≤ a := by
  induction t with
  | nil => intro acc a h; cases h
  | cons b t ih =>
    intro acc a h
    rcases List.mem_cons.mp h with h | h
    · rw [h]
      calc (b :: t).foldl min acc = t.foldl min (min acc b) := rfl
      _ ≤ min acc b := foldlMin_le_acc t (min acc b)
      _ ≤ b := min_le_right _ _
    · exact ih (min acc b) a h

theorem foldlMin_mem (t : List ℚ) : ∀ acc : ℚ, t.foldl min acc = acc ∨ t.foldl min acc ∈ t := by
  induction t with
  | nil => intro acc; exact Or.inl rfl
  | cons b t ih =>
    intro acc
    rcases ih (min acc b) with h | h
    · rcases min_choice acc b with hm | hm
      · exact Or.inl (by rw [show (b :: t).foldl min acc = t.foldl min (min acc b) from rfl, h, hm])
      · refine Or.inr (List.mem_cons.mpr (Or.inl ?_))
        rw [show (b :: t).foldl min acc = t.foldl min (min acc b) from rfl, h, hm]
    · exact Or.inr (List.mem_cons.mpr (Or.inr h))

theorem foldlMax_le_acc (t : List ℚ) : ∀ acc : ℚ, acc ≤ t.foldl max acc := by
  induction t with
  | nil => intro acc; exact le_refl acc
  | cons a t ih =>
    intro acc
    calc acc ≤ max acc a := le_max_left _ _
    _ ≤ t.foldl max (max acc a) := ih (max acc a)
    _ = (a :: t).foldl max acc := rfl

theorem foldlMax_le_mem (t : List ℚ) : ∀ (acc a : ℚ), a ∈ t → a ≤ t.foldl max acc := by
  induction t with
  | nil => intro acc a h; cases h
  | cons b t ih =>
    intro acc a h
    rcases List.mem_cons.mp h with h | h
    · rw [h]
      calc b ≤ max acc b := le_max_right _ _
      _ ≤ t.foldl max (max acc b) := foldlMax_le_acc t (max acc b)
      _ = (b :: t).foldl max acc := rfl
    · exact ih (max acc b) a h

theorem foldlMax_mem (t : List ℚ) : ∀ acc : ℚ, t.foldl max acc = acc ∨ t.foldl max acc ∈ t := by
  induction t with
  | nil => intro acc; exact Or.inl rfl
  | cons b t ih =>
    intro acc
    rcases ih (max acc b) with h | h
    · rcases max_choice acc b with hm | hm
      · exact Or.inl (by rw [show (b :: t).foldl max acc = t.foldl max (max acc b) from rfl, h, hm])
      · refine Or.inr (List.mem_cons.mpr (Or.inl ?_))
        rw [show (b :: t).foldl max acc = t.foldl max (max acc b) from rfl, h, hm]
    · exact Or.inr (List.mem_cons.mpr (Or.inr h))

theorem npMin_le (l : List ℚ) (a : ℚ) (h : a ∈ l) : npMin l ≤ a := by
  match l, h with
  | b :: t, h =>
    rcases List.mem_cons.mp h with h | h
    · subst h; exact foldlMin_le_acc t a
    · exact foldlMin_le_mem t b a h

theorem npMin_mem (l : List ℚ) (h : l ≠ []) : npMin l ∈ l := by
  match l, h with
  | b :: t, _ =>
    rcases foldlMin_mem t b with h | h
    · exact List.mem_cons.mpr (Or.inl h)
    · exact List.mem_cons.mpr (Or.inr h)

theorem npMax_le (l : List ℚ) (a : ℚ) (h : a ∈ l) : a ≤ npMax l := by
  match l, h with
  | b :: t, h =>
    rcases List.mem_cons.mp h with h | h
    · subst h; exact foldlMax_le_acc t a
    · exact foldlMax_le_mem t b a h

theorem npMax_mem (l : List ℚ) (h : l ≠ []) : npMax l ∈ l := by
  match l, h with
  | b :: t, _ =>
    rcases foldlMax_mem t b with h | h
    · exact List.mem_cons.mpr (Or.inl h)
    · exact List.mem_cons.mpr (Or.inr h)

theorem coordMin_spec (vs : List Vertex) (h : vs ≠ []) (g : Vertex → ℚ) :
    (∀ v ∈ vs, npMin (vs.map g) ≤ g v) ∧ (∃ v ∈ vs, g v = npMin (vs.map g)) := by
  constructor
  · intro v hv
    exact npMin_le (vs.map g) (g v) (List.mem_map.mpr ⟨v, hv, rfl⟩)
  · have hne : vs.map g ≠ [] := by
      simpa using h
    rcases List.mem_map.mp (npMin_mem (vs.map g) hne) with ⟨v, hv, hg⟩
    exact ⟨v, hv, hg⟩

theorem coordMax_spec (vs : List Vertex) (h : vs ≠ []) (g : Vertex → ℚ) :
    (∀ v ∈ vs, g v ≤ npMax (vs.map g)) ∧ (∃ v ∈ vs, g v = npMax (vs.map g)) := by
  constructor
  · intro v hv
    exact npMax_le (vs.map g) (g v) (List.mem_map.mpr ⟨v, hv, rfl⟩)
  · have hne : vs.map g ≠ [] := by
      simpa using h
    rcases List.mem_map.mp (npMax_mem (vs.map g) hne) with ⟨v, hv, hg⟩
    exact ⟨v, hv, hg⟩

/-- C1: for every non-empty point cloud, the room frame of `main` satisfies
`floor_y = min y`, `ceiling_y = max y`, `front_z = min z`, `back_z = max z`,
`left_x = min x`, `right_x = max x` over the cloud (each extremum is a bound
and is attained), and hence `floor_y ≤ ceiling_y`, `front_z ≤ back_z`,
`left_x ≤ right_x`. -/
theorem c1_room_frame_extrema (vs : List Vertex) (h : vs ≠ []) :
    ((∀ v ∈ vs, (roomFrame vs).floor_y ≤ v.y) ∧ (∃ v ∈ vs, v.y = (roomFrame vs).floor_y)) ∧
    ((∀ v ∈ vs, v.y ≤ (roomFrame vs).ceiling_y) ∧ (∃ v ∈ vs, v.y = (roomFrame vs).ceiling_y)) ∧
    ((∀ v ∈ vs, (roomFrame vs).front_z ≤ v.z) ∧ (∃ v ∈ vs, v.z = (roomFrame vs).front_z)) ∧
    ((∀ v ∈ vs, v.z ≤ (roomFrame vs).back_z) ∧ (∃ v ∈ vs, v.z = (roomFrame vs).back_z)) ∧
    ((∀ v ∈ vs, (roomFrame vs).left_x ≤ v.x) ∧ (∃ v ∈ vs, v.x = (roomFrame vs).left_x)) ∧
    ((∀ v ∈ vs, v.x ≤ (roomFrame vs).right_x) ∧ (∃ v ∈ vs, v.x = (roomFrame vs).right_x)) ∧
    ((roomFrame vs).floor_y ≤ (roomFrame vs).ceiling_y ∧
     (roomFrame vs).front_z ≤ (roomFrame vs).back_z ∧
     (roomFrame vs).left_x ≤ (roomFrame vs).right_x) := by
  obtain ⟨v0, hv0⟩ := List.exists_mem_of_ne_nil vs h
  have hy := coordMin_spec vs h Vertex.y
  have hy' := coordMax_spec vs h Vertex.y
  have hz := coordMin_spec vs h Vertex.z
  have hz' := coordMax_spec vs h Vertex.z
  have hx := coordMin_spec vs h Vertex.x
  have hx' := coordMax_spec vs h Vertex.x
  refine ⟨⟨hy.1, ?_⟩, ⟨hy'.1, ?_⟩, ⟨hz.1, ?_⟩, ⟨hz'.1, ?_⟩, ⟨hx.1, ?_⟩, ⟨hx'.1, ?_⟩, ?_, ?_, ?_⟩
  · rcases hy.2 with ⟨v, hv, hg⟩; exact ⟨v, hv, hg⟩
  · rcases hy'.2 with ⟨v, hv, hg⟩; exact ⟨v, hv, hg⟩
  · rcases hz.2 with ⟨v, hv, hg⟩; exact ⟨v, hv, hg⟩
  · rcases hz'.2 with ⟨v, hv, hg⟩; exact ⟨v, hv, hg⟩
  · rcases hx.2 with ⟨v, hv, hg⟩; exact ⟨v, hv, hg⟩
  · rcases hx'.2 with ⟨v, hv, hg⟩; exact ⟨v, hv, hg⟩
  · exact le_trans (hy.1 v0 hv0) (hy'.1 v0 hv0)
  · exact le_trans (hz.1 v0 hv0) (hz'.1 v0 hv0)
  · exact le_trans (hx.1 v0 hv0) (hx'.1 v0 hv0)

/-- A tiny concrete cloud used by several witnesses. -/
def cloud2 : List Vertex := [⟨0, 0, 0⟩, ⟨1, 1, 1⟩]

/-- Witness for C1 at the concrete two-point cloud `cloud2`. -/
theorem c1_witness :
    ((∀ v ∈ cloud2, (roomFrame cloud2).floor_y ≤ v.y) ∧
      (∃ v ∈ cloud2, v.y = (roomFrame cloud2).floor_y)) ∧
    ((∀ v ∈ cloud2, v.y ≤ (roomFrame cloud2).ceiling_y) ∧
      (∃ v ∈ cloud2, v.y = (roomFrame cloud2).ceiling_y)) ∧
    ((∀ v ∈ cloud2, (roomFrame cloud2).front_z ≤ v.z) ∧
      (∃ v ∈ cloud2, v.z = (roomFrame cloud2).front_z)) ∧
    ((∀ v ∈ cloud2, v.z ≤ (roomFrame cloud2).back_z) ∧
      (∃ v ∈ cloud2, v.z = (roomFrame cloud2).back_z)) ∧
    ((∀ v ∈ cloud2, (roomFrame cloud2).left_x ≤ v.x) ∧
      (∃ v ∈ cloud2, v.x = (roomFrame cloud2).left_x)) ∧
    ((∀ v ∈ cloud2, v.x ≤ (roomFrame cloud2).right_x) ∧
      (∃ v ∈ cloud2, v.x = (roomFrame cloud2).right_x)) ∧
    ((roomFrame cloud2).floor_y ≤ (roomFrame cloud2).ceiling_y ∧
     (roomFrame cloud2).front_z ≤ (roomFrame cloud2).back_z ∧
     (roomFrame cloud2).left_x ≤ (roomFrame cloud2).right_x) :=
  c1_room_frame_extrema cloud2 (by decide)

/-- The physical constants and tolerance margins hard-coded in `main`
(lines 127-249).  Each default value is the corresponding literal of the
source; `main`'s behaviour is `defaultConfig`.  The margin fields are the
per-predicate tolerances; `rack_ceiling_clearance` is the wall-clearance
offset `ceiling_y - 0.3`. -/
structure HeuristicConfig where
  shelf_height : ℚ := 0.6
  speaker_height : ℚ := 0.58
  speaker_width : ℚ := 0.38
  speaker_depth : ℚ := 0.27
  baffle_offset : ℚ := 0.28
  left_wall_offset : ℚ := 0.11
  right_wall_offset : ℚ := 0.15
  front_band : ℚ := 0.5
  back_band : ℚ := 0.5
  shelf_depth_margin : ℚ := 0.1
  shelf_inner_margin : ℚ := 0.05
  shelf_outer_margin : ℚ := 0.1
  speaker_margin : ℚ := 0.02
  rack_baffle_margin : ℚ := 0.02
  rack_inner_margin : ℚ := 0.05
  rack_outer_margin : ℚ := 0.1
  rack_ceiling_clearance : ℚ := 0.3
  floor_band : ℚ := 0.1
  ceiling_band : ℚ := 0.1
  sofa_z_min : ℚ := 0.5
  sofa_y_low : ℚ := 0.2
  sofa_y_high : ℚ := 0.7

/-- The configuration actually used by the script (all source literals). -/
def defaultConfig : HeuristicConfig := {}

/-- `shelf_top_y = floor_y + 0.6` (line 138). -/
def shelf_top_y (f : RoomFrame) (c : HeuristicConfig) : ℚ := f.floor_y + c.shelf_height

/-- `speaker_top_y = shelf_top_y + speaker_height` (line 140). -/
def speaker_top_y (f : RoomFrame) (c : HeuristicConfig) : ℚ :=
  shelf_top_y f c + c.speaker_height

/-- `baffle_z = front_z + 0.28` (line 147). -/
def baffle_z (f : RoomFrame) (c : HeuristicConfig) : ℚ := f.front_z + c.baffle_offset

/-- `left_spk_x_inner = left_x + 0.11` (line 152). -/
def left_spk_x_inner (f : RoomFrame) (c : HeuristicConfig) : ℚ :=
  f.left_x + c.left_wall_offset

/-- `left_spk_x_outer = left_spk_x_inner + speaker_width` (line 153). -/
def left_spk_x_outer (f : RoomFrame) (c : HeuristicConfig) : ℚ :=
  left_spk_x_inner f c + c.speaker_width

/-- `right_spk_x_outer = right_x - 0.15` (line 155). -/
def right_spk_x_outer (f : RoomFrame) (c : HeuristicConfig) : ℚ :=
  f.right_x - c.right_wall_offset

/-- `right_spk_x_inner = right_spk_x_outer - speaker_width` (line 156). -/
def right_spk_x_inner (f : RoomFrame) (c : HeuristicConfig) : ℚ :=
  right_spk_x_outer f c - c.speaker_width

/-- Region 1 (line 128): `vertices[:, 2] < front_z + 0.5`. -/
def front_area_mask (f : RoomFrame) (c : HeuristicConfig) (v : Vertex) : Bool :=
  decide (v.z < f.front_z + c.front_band)

/-- Region 2 (line 132): `vertices[:, 2] > back_z - 0.5`. -/
def back_area_mask (f : RoomFrame) (c : HeuristicConfig) (v : Vertex) : Bool :=
  decide (f.back_z - c.back_band < v.z)

/-- Region 3 (lines 160-166): the left-shelf mask. -/
def left_shelf_mask (f : RoomFrame) (c : HeuristicConfig) (v : Vertex) : Bool :=
  decide (v.z < baffle_z f c + c.speaker_depth + c.shelf_depth_margin) &&
  decide (left_spk_x_inner f c - c.shelf_inner_margin < v.x) &&
  decide (v.x < left_spk_x_outer f c + c.shelf_outer_margin) &&
  decide (f.floor_y < v.y) &&
  decide (v.y < shelf_top_y f c)

/-- Region 4 (lines 171-177): the right-shelf mask (mirrored margins). -/
def right_shelf_mask (f : RoomFrame) (c : HeuristicConfig) (v : Vertex) : Bool :=
  decide (v.z < baffle_z f c + c.speaker_depth + c.shelf_depth_margin) &&
  decide (right_spk_x_inner f c - c.shelf_outer_margin < v.x) &&
  decide (v.x < right_spk_x_outer f c + c.shelf_inner_margin) &&
  decide (f.floor_y < v.y) &&
  decide (v.y < shelf_top_y f c)

/-- Region 5 (lines 185-192): the left-speaker body mask; the source uses the
single tolerance `0.02` on all six bounds. -/
def left_speaker_mask (f : RoomFrame) (c : HeuristicConfig) (v : Vertex) : Bool :=
  decide (baffle_z f c - c.speaker_margin < v.z) &&
  decide (v.z < baffle_z f c + c.speaker_depth + c.speaker_margin) &&
  decide (left_spk_x_inner f c - c.speaker_margin < v.x) &&
  decide (v.x < left_spk_x_outer f c + c.speaker_margin) &&
  decide (shelf_top_y f c - c.speaker_margin < v.y) &&
  decide (v.y < speaker_top_y f c + c.speaker_margin)

/-- Region 6 (lines 198-205): the right-speaker body mask. -/
def right_speaker_mask (f : RoomFrame) (c : HeuristicConfig) (v : Vertex) : Bool :=
  decide (baffle_z f c - c.speaker_margin < v.z) &&
  decide (v.z < baffle_z f c + c.speaker_depth + c.speaker_margin) &&
  decide (right_spk_x_inner f c - c.speaker_margin < v.x) &&
  decide (v.x < right_spk_x_outer f c + c.speaker_margin) &&
  decide (shelf_top_y f c - c.speaker_margin < v.y) &&
  decide (v.y < speaker_top_y f c + c.speaker_margin)

/-- Region 7 (lines 211-217): the left-rack mask; `z < baffle_z - 0.02`
keeps the rack strictly on the front-wall side of the baffle. -/
def left_rack_mask (f : RoomFrame) (c : HeuristicConfig) (v : Vertex) : Bool :=
  decide (v.z < baffle_z f c - c.rack_baffle_margin) &&
  decide (left_spk_x_inner f c - c.rack_inner_margin < v.x) &&
  decide (v.x < left_spk_x_outer f c + c.rack_outer_margin) &&
  decide (shelf_top_y f c < v.y) &&
  decide (v.y < f.ceiling_y - c.rack_ceiling_clearance)

/-- Region 8 (lines 222-228): the right-rack mask. -/
def right_rack_mask (f : RoomFrame) (c : HeuristicConfig) (v : Vertex) : Bool :=
  decide (v.z < baffle_z f c - c.rack_baffle_margin) &&
  decide (right_spk_x_inner f c - c.rack_outer_margin < v.x) &&
  decide (v.x < right_spk_x_outer f c + c.rack_inner_margin) &&
  decide (shelf_top_y f c < v.y) &&
  decide (v.y < f.ceiling_y - c.rack_ceiling_clearance)

/-- Region 9 (lines 233-237): the sofa estimate mask. -/
def sofa_mask (f : RoomFrame) (c : HeuristicConfig) (v : Vertex) : Bool :=
  decide (c.sofa_z_min < v.z) &&
  decide (f.floor_y + c.sofa_y_low < v.y) &&
  decide (v.y < f.floor_y + c.sofa_y_high)

/-- Region 10 (line 242): `vertices[:, 1] < floor_y + 0.1`. -/
def floor_mask (f : RoomFrame) (c : HeuristicConfig) (v : Vertex) : Bool :=
  decide (v.y < f.floor_y + c.floor_band)

/-- Region 11 (line 247): `vertices[:, 1] > ceiling_y - 0.1`. -/
def ceiling_mask (f : RoomFrame) (c : HeuristicConfig) (v : Vertex) : Bool :=
  decide (f.ceiling_y - c.ceiling_band < v.y)

/-- The `centroid` sub-record of `analyze_region`. -/
structure Centroid where
  x_m : ℚ
  y_m : ℚ
  z_m : ℚ
deriving DecidableEq, Repr

/-- The `bounds` sub-record of `analyze_region`. -/
structure Bounds where
  x_min_m : ℚ
  x_max_m : ℚ
  y_min_m : ℚ
  y_max_m : ℚ
  z_min_m : ℚ
  z_max_m : ℚ
deriving DecidableEq, Repr

/-- The `size` sub-record of `analyze_region` (millimeters, truncated). -/
structure SizeMm where
  x_mm : ℤ
  y_mm : ℤ
  z_mm : ℤ
deriving DecidableEq, Repr

/-- The statistics block a non-empty region carries. -/
structure RegionStats where
  centroid : Centroid
  bounds : Bounds
  size : SizeMm
deriving DecidableEq, Repr

/-- One entry of `result["regions"]`.  `stats = none` is the zero-count stub
(only name and count); `sample_vertices` is attached later by the report
assembly loop (lines 422-440), `none` until then / for empty regions. -/
structure RegionRecord where
  name : String
  vertex_count : ℕ
  stats : Option RegionStats := none
  sample_vertices : Option (List Vertex) := none
deriving DecidableEq, Repr

/-- The statistics computed by `analyze_region` on a non-empty array
(lines 45-66). -/
def regionStats (vertices : List Vertex) : RegionStats :=
  { centroid :=
      { x_m := npMean (vertices.map Vertex.x)
        y_m := npMean (vertices.map Vertex.y)
        z_m := npMean (vertices.map Vertex.z) }
    bounds :=
      { x_min_m := npMin (vertices.map Vertex.x)
        x_max_m := npMax (vertices.map Vertex.x)
        y_min_m := npMin (vertices.map Vertex.y)
        y_max_m := npMax (vertices.map Vertex.y)
        z_min_m := npMin (vertices.map Vertex.z)
        z_max_m := npMax (vertices.map Vertex.z) }
    size :=
      { x_mm := pyInt ((npMax (vertices.map Vertex.x) - npMin (vertices.map Vertex.x)) * 1000)
        y_mm := pyInt ((npMax (vertices.map Vertex.y) - npMin (vertices.map Vertex.y)) * 1000)
        z_mm := pyInt ((npMax (vertices.map Vertex.z) - npMin (vertices.map Vertex.z)) * 1000) } }

/-- `analyze_region` (lines 40-66): a zero-count region degrades to the
name-and-count stub, otherwise the full statistics are attached. -/
def analyze_region (vertices : List Vertex) (name : String) : RegionRecord :=
  if vertices.length = 0 then
    { name := name, vertex_count := 0 }
  else
    { name := name, vertex_count := vertices.length, stats := some (regionStats vertices) }

/-- The 11 region records of `main`, in declared order (lines 127-249). -/
def regionsOf (vs : List Vertex) (f : RoomFrame) (c : HeuristicConfig) : List RegionRecord :=
  [ analyze_region (vs.filter (front_area_mask f c)) "front_wall_area"
  , analyze_region (vs.filter (back_area_mask f c)) "back_wall_area"
  , analyze_region (vs.filter (left_shelf_mask f c)) "left_shelf"
  , analyze_region (vs.filter (right_shelf_mask f c)) "right_shelf"
  , analyze_region (vs.filter (left_speaker_mask f c)) "left_speaker"
  , analyze_region (vs.filter (right_speaker_mask f c)) "right_speaker"
  , analyze_region (vs.filter (left_rack_mask f c)) "left_rack"
  , analyze_region (vs.filter (right_rack_mask f c)) "right_rack"
  , analyze_region (vs.filter (sofa_mask f c)) "sofa_estimated"
  , analyze_region (vs.filter (floor_mask f c)) "floor"
  , analyze_region (vs.filter (ceiling_mask f c)) "ceiling" ]

theorem analyze_region_count (l : List Vertex) (name : String) :
    (analyze_region l name).vertex_count = l.length := by
  unfold analyze_region
  split
  · next h => simp [h]
  · rfl

theorem analyze_region_stats_of_ne (l : List Vertex) (name : String) (h : l.length ≠ 0) :
    (analyze_region l name).stats = some (regionStats l) := by
  unfold analyze_region
  rw [if_neg h]

/-- C2: for every point cloud and region predicate, the record produced by
`analyze_region` on the mask-filtered cloud has `vertex_count` equal to the
number of points satisfying the predicate, its centroid is the coordinate-wise
arithmetic mean of the matched points, its bounds are the per-axis min/max of
the matched points (lower/upper bound and attained), and each millimeter size
is the meter extent times 1000 truncated toward zero. -/
theorem c2_region_statistics (vs : List Vertex) (p : Vertex → Bool) (name : String)
    (h : vs.countP p ≠ 0) :
    (analyze_region (vs.filter p) name).vertex_count = vs.countP p ∧
    ∃ s, (analyze_region (vs.filter p) name).stats = some s ∧
      (s.centroid.x_m = ((vs.filter p).map Vertex.x).sum / (vs.countP p : ℚ) ∧
       s.centroid.y_m = ((vs.filter p).map Vertex.y).sum / (vs.countP p : ℚ) ∧
       s.centroid.z_m = ((vs.filter p).map Vertex.z).sum / (vs.countP p : ℚ)) ∧
      ((∀ v ∈ vs.filter p, s.bounds.x_min_m ≤ v.x) ∧ (∃ v ∈ vs.filter p, v.x = s.bounds.x_min_m)) ∧
      ((∀ v ∈ vs.filter p, v.x ≤ s.bounds.x_max_m) ∧ (∃ v ∈ vs.filter p, v.x = s.bounds.x_max_m)) ∧
      ((∀ v ∈ vs.filter p, s.bounds.y_min_m ≤ v.y) ∧ (∃ v ∈ vs.filter p, v.y = s.bounds.y_min_m)) ∧
      ((∀ v ∈ vs.filter p, v.y ≤ s.bounds.y_max_m) ∧ (∃ v ∈ vs.filter p, v.y = s.bounds.y_max_m)) ∧
      ((∀ v ∈ vs.filter p, s.bounds.z_min_m ≤ v.z) ∧ (∃ v ∈ vs.filter p, v.z = s.bounds.z_min_m)) ∧
      ((∀ v ∈ vs.filter p, v.z ≤ s.bounds.z_max_m) ∧ (∃ v ∈ vs.filter p, v.z = s.bounds.z_max_m)) ∧
      (s.size.x_mm = pyInt ((s.bounds.x_max_m - s.bounds.x_min_m) * 1000) ∧
       s.size.y_mm = pyInt ((s.bounds.y_max_m - s.bounds.y_min_m) * 1000) ∧
       s.size.z_mm = pyInt ((s.bounds.z_max_m - s.bounds.z_min_m) * 1000)) := by
  have hlen : vs.countP p = (vs.filter p).length := by
    simp [List.countP_eq_length_filter]
  have hne0 : (vs.filter p).length ≠ 0 := by rw [← hlen]; exact h
  have hnil : vs.filter p ≠ [] := by
    intro hh
    rw [hh] at hne0
    exact hne0 rfl
  refine ⟨by rw [analyze_region_count, ← hlen], regionStats (vs.filter p),
    analyze_region_stats_of_ne _ _ hne0, ⟨?_, ?_, ?_⟩,
    ⟨(coordMin_spec _ hnil Vertex.x).1, (coordMin_spec _ hnil Vertex.x).2⟩,
    ⟨(coordMax_spec _ hnil Vertex.x).1, (coordMax_spec _ hnil Vertex.x).2⟩,
    ⟨(coordMin_spec _ hnil Vertex.y).1, (coordMin_spec _ hnil Vertex.y).2⟩,
    ⟨(coordMax_spec _ hnil Vertex.y).1, (coordMax_spec _ hnil Vertex.y).2⟩,
    ⟨(coordMin_spec _ hnil Vertex.z).1, (coordMin_spec _ hnil Vertex.z).2⟩,
    ⟨(coordMax_spec _ hnil Vertex.z).1, (coordMax_spec _ hnil Vertex.z).2⟩,
    rfl, rfl, rfl⟩
  · show npMean ((vs.filter p).map Vertex.x) = _
    simp only [npMean, List.length_map, ← hlen]
  · show npMean ((vs.filter p).map Vertex.y) = _
    simp only [npMean, List.length_map, ← hlen]
  · show npMean ((vs.filter p).map Vertex.z) = _
    simp only [npMean, List.length_map, ← hlen]

/-- A trivially-true predicate used by the C2 witness. -/
def pAll : Vertex → Bool := fun _ => true

/-- Witness for C2 at the concrete cloud `cloud2` and the all-points mask. -/
theorem c2_witness :
    (analyze_region (cloud2.filter pAll) "all").vertex_count = cloud2.countP pAll ∧
    ∃ s, (analyze_region (cloud2.filter pAll) "all").stats = some s ∧
      (s.centroid.x_m = ((cloud2.filter pAll).map Vertex.x).sum / (cloud2.countP pAll : ℚ) ∧
       s.centroid.y_m = ((cloud2.filter pAll).map Vertex.y).sum / (cloud2.countP pAll : ℚ) ∧
       s.centroid.z_m = ((cloud2.filter pAll).map Vertex.z).sum / (cloud2.countP pAll : ℚ)) ∧
      ((∀ v ∈ cloud2.filter pAll, s.bounds.x_min_m ≤ v.x) ∧
        (∃ v ∈ cloud2.filter pAll, v.x = s.bounds.x_min_m)) ∧
      ((∀ v ∈ cloud2.filter pAll, v.x ≤ s.bounds.x_max_m) ∧
        (∃ v ∈ cloud2.filter pAll, v.x = s.bounds.x_max_m)) ∧
      ((∀ v ∈ cloud2.filter pAll, s.bounds.y_min_m ≤ v.y) ∧
        (∃ v ∈ cloud2.filter pAll, v.y = s.bounds.y_min_m)) ∧
      ((∀ v ∈ cloud2.filter pAll, v.y ≤ s.bounds.y_max_m) ∧
        (∃ v ∈ cloud2.filter pAll, v.y = s.bounds.y_max_m)) ∧
      ((∀ v ∈ cloud2.filter pAll, s.bounds.z_min_m ≤ v.z) ∧
        (∃ v ∈ cloud2.filter pAll, v.z = s.bounds.z_min_m)) ∧
      ((∀ v ∈ cloud2.filter pAll, v.z ≤ s.bounds.z_max_m) ∧
        (∃ v ∈ cloud2.filter pAll, v.z = s.bounds.z_max_m)) ∧
      (s.size.x_mm = pyInt ((s.bounds.x_max_m - s.bounds.x_min_m) * 1000) ∧
       s.size.y_mm = pyInt ((s.bounds.y_max_m - s.bounds.y_min_m) * 1000) ∧
       s.size.z_mm = pyInt ((s.bounds.z_max_m - s.bounds.z_min_m) * 1000)) :=
  c2_region_statistics cloud2 pAll "all" (by decide)

/-- C10: for every non-empty point cloud (with the script's default
constants), the point attaining the y-minimum satisfies the floor predicate,
the y-maximum point the ceiling predicate, and the z-minimum / z-maximum
points the front/back wall-area predicates, so the four regions `floor`,
`ceiling`, `front_wall_area`, `back_wall_area` all have `vertex_count ≥ 1`. -/
theorem c10_extreme_regions_nonempty (vs : List Vertex) (h : vs ≠ []) :
    (∀ v ∈ vs, v.y = (roomFrame vs).floor_y →
      floor_mask (roomFrame vs) defaultConfig v = true) ∧
    (∀ v ∈ vs, v.y = (roomFrame vs).ceiling_y →
      ceiling_mask (roomFrame vs) defaultConfig v = true) ∧
    (∀ v ∈ vs, v.z = (roomFrame vs).front_z →
      front_area_mask (roomFrame vs) defaultConfig v = true) ∧
    (∀ v ∈ vs, v.z = (roomFrame vs).back_z →
      back_area_mask (roomFrame vs) defaultConfig v = true) ∧
    1 ≤ (analyze_region (vs.filter (floor_mask (roomFrame vs) defaultConfig))
      "floor").vertex_count ∧
    1 ≤ (analyze_region (vs.filter (ceiling_mask (roomFrame vs) defaultConfig))
      "ceiling").vertex_count ∧
    1 ≤ (analyze_region (vs.filter (front_area_mask (roomFrame vs) defaultConfig))
      "front_wall_area").vertex_count ∧
    1 ≤ (analyze_region (vs.filter (back_area_mask (roomFrame vs) defaultConfig))
      "back_wall_area").vertex_count := by
  have hfloor : ∀ v ∈ vs, v.y = (roomFrame vs).floor_y →
      floor_mask (roomFrame vs) defaultConfig v = true := by
    intro v _ hy
    simp only [floor_mask, defaultConfig, decide_eq_true_eq]
    rw [hy]
    norm_num
  have hceil : ∀ v ∈ vs, v.y = (roomFrame vs).ceiling_y →
      ceiling_mask (roomFrame vs) defaultConfig v = true := by
    intro v _ hy
    simp only [ceiling_mask, defaultConfig, decide_eq_true_eq]
    rw [hy]
    norm_num
  have hfront : ∀ v ∈ vs, v.z = (roomFrame vs).front_z →
      front_area_mask (roomFrame vs) defaultConfig v = true := by
    intro v _ hz
    simp only [front_area_mask, defaultConfig, decide_eq_true_eq]
    rw [hz]
    norm_num
  have hback : ∀ v ∈ vs, v.z = (roomFrame vs).back_z →
      back_area_mask (roomFrame vs) defaultConfig v = true := by
    intro v _ hz
    simp only [back_area_mask, defaultConfig, decide_eq_true_eq]
    rw [hz]
    norm_num
  have hcount : ∀ (q : Vertex → Bool) (name : String), (∃ v ∈ vs, q v = true) →
      1 ≤ (analyze_region (vs.filter q) name).vertex_count := by
    intro q name hq
    rcases hq with ⟨v, hv, hqv⟩
    have hmem : v ∈ vs.filter q := List.mem_filter.mpr ⟨hv, hqv⟩
    have hpos : 0 < (vs.filter q).length := List.length_pos.mpr (List.ne_nil_of_mem hmem)
    rw [analyze_region_count]
    omega
  refine ⟨hfloor, hceil, hfront, hback, ?_, ?_, ?_, ?_⟩
  · rcases (coordMin_spec vs h Vertex.y).2 with ⟨v, hv, hy⟩
    exact hcount _ "floor" ⟨v, hv, hfloor v hv hy⟩
  · rcases (coordMax_spec vs h Vertex.y).2 with ⟨v, hv, hy⟩
    exact hcount _ "ceiling" ⟨v, hv, hceil v hv hy⟩
  · rcases (coordMin_spec vs h Vertex.z).2 with ⟨v, hv, hz⟩
    exact hcount _ "front_wall_area" ⟨v, hv, hfront v hv hz⟩
  · rcases (coordMax_spec vs h Vertex.z).2 with ⟨v, hv, hz⟩
    exact hcount _ "back_wall_area" ⟨v, hv, hback v hv hz⟩

/-- Witness for C10 at the concrete two-point cloud `cloud2`. -/
theorem c10_witness :
    (∀ v ∈ cloud2, v.y = (roomFrame cloud2).floor_y →
      floor_mask (roomFrame cloud2) defaultConfig v = true) ∧
    (∀ v ∈ cloud2, v.y = (roomFrame cloud2).ceiling_y →
      ceiling_mask (roomFrame cloud2) defaultConfig v = true) ∧
    (∀ v ∈ cloud2, v.z = (roomFrame cloud2).front_z →
      front_area_mask (roomFrame cloud2) defaultConfig v = true) ∧
    (∀ v ∈ cloud2, v.z = (roomFrame cloud2).back_z →
      back_area_mask (roomFrame cloud2) defaultConfig v = true) ∧
    1 ≤ (analyze_region (cloud2.filter (floor_mask (roomFrame cloud2) defaultConfig))
      "floor").vertex_count ∧
    1 ≤ (analyze_region (cloud2.filter (ceiling_mask (roomFrame cloud2) defaultConfig))
      "ceiling").vertex_count ∧
    1 ≤ (analyze_region (cloud2.filter (front_area_mask (roomFrame cloud2) defaultConfig))
      "front_wall_area").vertex_count ∧
    1 ≤ (analyze_region (cloud2.filter (back_area_mask (roomFrame cloud2) defaultConfig))
      "back_wall_area").vertex_count :=
  c10_extreme_regions_nonempty cloud2 (by decide)

/-- The `measurements["left_speaker"]` / `["right_speaker"]` record
(lines 263-286); `from_wall_mm` is `from_left_wall_mm` for the left
speaker and `from_right_wall_mm` for the right one. -/
structure SpeakerMeas where
  from_wall_mm : ℤ
  baffle_z_m : ℚ
  from_front_wall_mm : ℤ
  tweeter_height_mm : ℤ
  bottom_height_mm : ℤ
  width_mm : ℤ
  depth_mm : ℤ
deriving DecidableEq, Repr

/-- The per-shelf measurement record (lines 297-307). -/
structure ShelfMeas where
  height_mm : ℤ
  depth_mm : ℤ
deriving DecidableEq, Repr

/-- The per-rack measurement record (lines 310-320). -/
structure RackMeas where
  depth_mm : ℤ
  top_height_mm : ℤ
deriving DecidableEq, Repr

/-- The `measurements["listening_point"]` record (lines 323-336);
`from_speaker_center_mm` is only added when both speaker regions are
non-empty. -/
structure ListeningPoint where
  from_front_wall_mm : ℤ
  seat_height_mm : ℤ
  ear_height_estimated_mm : ℤ
  from_speaker_center_mm : Option ℤ
deriving DecidableEq, Repr

/-- The `measurements` map (lines 260-336); a `none` field is an absent key. -/
structure Measurements where
  left_speaker : Option SpeakerMeas
  right_speaker : Option SpeakerMeas
  speaker_distance_mm : Option ℤ
  speaker_center_distance_mm : Option ℤ
  left_shelf : Option ShelfMeas
  right_shelf : Option ShelfMeas
  left_rack : Option RackMeas
  right_rack : Option RackMeas
  listening_point : Option ListeningPoint
deriving DecidableEq, Repr

/-- Floor of the square root of a nonnegative rational, via integer square
root: for `q = a / b` one has `⌊√(a/b)⌋ = ⌊√(a*b)⌋ / b = Nat.sqrt (a*b) / b`.
This is the executable form of the script's `np.sqrt`; the agreement with
`Real.sqrt` is `ratSqrtFloorNat_eq`. -/
def ratSqrtFloorNat (q : ℚ) : ℕ := Nat.sqrt (q.num.toNat * q.den) / q.den

/-- `int(np.sqrt(dx**2 + dz**2) * 1000)` of line 335-336: the distance is
nonnegative, so `int()` is the floor, and `⌊1000*√s⌋ = ⌊√(1000000*s)⌋`. -/
def pyDistMm (dx dz : ℚ) : ℤ := (ratSqrtFloorNat (1000000 * (dx ^ 2 + dz ^ 2)) : ℤ)

/-- The left-speaker measurement block (lines 263-273). -/
def leftSpeakerMeasurement (f : RoomFrame) (s : RegionStats) : SpeakerMeas :=
  { from_wall_mm := pyInt (|s.bounds.x_min_m - f.left_x| * 1000)
    baffle_z_m := s.bounds.z_max_m
    from_front_wall_mm := pyInt (|s.bounds.z_min_m - f.front_z| * 1000)
    tweeter_height_mm := pyInt ((s.bounds.y_max_m - f.floor_y) * 1000)
    bottom_height_mm := pyInt ((s.bounds.y_min_m - f.floor_y) * 1000)
    width_mm := pyInt ((s.bounds.x_max_m - s.bounds.x_min_m) * 1000)
    depth_mm := pyInt ((s.bounds.z_max_m - s.bounds.z_min_m) * 1000) }

/-- The right-speaker measurement block (lines 276-286). -/
def rightSpeakerMeasurement (f : RoomFrame) (s : RegionStats) : SpeakerMeas :=
  { from_wall_mm := pyInt (|f.right_x - s.bounds.x_max_m| * 1000)
    baffle_z_m := s.bounds.z_max_m
    from_front_wall_mm := pyInt (|s.bounds.z_min_m - f.front_z| * 1000)
    tweeter_height_mm := pyInt ((s.bounds.y_max_m - f.floor_y) * 1000)
    bottom_height_mm := pyInt ((s.bounds.y_min_m - f.floor_y) * 1000)
    width_mm := pyInt ((s.bounds.x_max_m - s.bounds.x_min_m) * 1000)
    depth_mm := pyInt ((s.bounds.z_max_m - s.bounds.z_min_m) * 1000) }

/-- The measurement derivation of `main` (lines 251-336).  The source binds
each region record with `next(r for r in regions if r["name"] == ...)`, which
retrieves exactly the record appended under that name in `regionsOf`; the
lookups are resolved statically here.  Every `if data and data["vertex_count"]
> 0` guard reduces to the count test because the lookups always succeed. -/
def mainMeasurements (vs : List Vertex) (f : RoomFrame) (c : HeuristicConfig) : Measurements :=
  let left_spk_data := analyze_region (vs.filter (left_speaker_mask f c)) "left_speaker"
  let right_spk_data := analyze_region (vs.filter (right_speaker_mask f c)) "right_speaker"
  let left_shelf_data := analyze_region (vs.filter (left_shelf_mask f c)) "left_shelf"
  let right_shelf_data := analyze_region (vs.filter (right_shelf_mask f c)) "right_shelf"
  let left_rack_data := analyze_region (vs.filter (left_rack_mask f c)) "left_rack"
  let right_rack_data := analyze_region (vs.filter (right_rack_mask f c)) "right_rack"
  let sofa_data := analyze_region (vs.filter (sofa_mask f c)) "sofa_estimated"
  { left_speaker :=
      if 0 < left_spk_data.vertex_count then
        left_spk_data.stats.map (fun s => leftSpeakerMeasurement f s)
      else none
    right_speaker :=
      if 0 < right_spk_data.vertex_count then
        right_spk_data.stats.map (fun s => rightSpeakerMeasurement f s)
      else none
    speaker_distance_mm :=
      if 0 < left_spk_data.vertex_count ∧ 0 < right_spk_data.vertex_count then
        match left_spk_data.stats, right_spk_data.stats with
        | some ls, some rs => some (pyInt (|rs.bounds.x_min_m - ls.bounds.x_max_m| * 1000))
        | _, _ => none
      else none
    speaker_center_distance_mm :=
      if 0 < left_spk_data.vertex_count ∧ 0 < right_spk_data.vertex_count then
        match left_spk_data.stats, right_spk_data.stats with
        | some ls, some rs => some (pyInt (|rs.centroid.x_m - ls.centroid.x_m| * 1000))
        | _, _ => none
      else none
    left_shelf :=
      if 0 < left_shelf_data.vertex_count then
        left_shelf_data.stats.map (fun s =>
          ({ height_mm := pyInt ((s.bounds.y_max_m - f.floor_y) * 1000)
             depth_mm := pyInt ((s.bounds.z_max_m - s.bounds.z_min_m) * 1000) } : ShelfMeas))
      else none
    right_shelf :=
      if 0 < right_shelf_data.vertex_count then
        right_shelf_data.stats.map (fun s =>
          ({ height_mm := pyInt ((s.bounds.y_max_m - f.floor_y) * 1000)
             depth_mm := pyInt ((s.bounds.z_max_m - s.bounds.z_min_m) * 1000) } : ShelfMeas))
      else none
    left_rack :=
      if 0 < left_rack_data.vertex_count then
        left_rack_data.stats.map (fun s =>
          ({ depth_mm := pyInt (|s.bounds.z_max_m - f.front_z| * 1000)
             top_height_mm := pyInt ((s.bounds.y_max_m - f.floor_y) * 1000) } : RackMeas))
      else none
    right_rack :=
      if 0 < right_rack_data.vertex_count then
        right_rack_data.stats.map (fun s =>
          ({ depth_mm := pyInt (|s.bounds.z_max_m - f.front_z| * 1000)
             top_height_mm := pyInt ((s.bounds.y_max_m - f.floor_y) * 1000) } : RackMeas))
      else none
    listening_point :=
      if 0 < sofa_data.vertex_count then
        sofa_data.stats.map (fun s =>
          { from_front_wall_mm := pyInt (|s.centroid.z_m - f.front_z| * 1000)
            seat_height_mm := pyInt ((s.centroid.y_m - f.floor_y) * 1000)
            ear_height_estimated_mm := pyInt ((s.centroid.y_m - f.floor_y + 0.45) * 1000)
            from_speaker_center_mm :=
              if 0 < left_spk_data.vertex_count ∧ 0 < right_spk_data.vertex_count then
                match left_spk_data.stats, right_spk_data.stats with
                | some ls, some rs =>
                  some (pyDistMm
                    (s.centroid.x_m - (ls.centroid.x_m + rs.centroid.x_m) / 2)
                    (s.centroid.z_m - (ls.centroid.z_m + rs.centroid.z_m) / 2))
                | _, _ => none
              else none })
      else none }

theorem vertex_count_eq_countP (vs : List Vertex) (p : Vertex → Bool) (name : String) :
    (analyze_region (vs.filter p) name).vertex_count = vs.countP p := by
  rw [analyze_region_count]
  simp [List.countP_eq_length_filter]

theorem ratSqrtFloorNat_eq (q : ℚ) (hq : 0 ≤ q) :
    (ratSqrtFloorNat q : ℤ) = ⌊Real.sqrt ((q : ℝ))⌋ := by
  have hbp : 0 < q.den := q.den_pos
  have hbR : (0 : ℝ) < (q.den : ℝ) := by exact_mod_cast hbp
  have hb0 : (q.den : ℝ) ≠ 0 := ne_of_gt hbR
  have ha : ((q.num.toNat : ℤ)) = q.num := Int.toNat_of_nonneg (Rat.num_nonneg.mpr hq)
  have hcast : (q : ℝ) = (q.num.toNat : ℝ) / (q.den : ℝ) := by
    rw [Rat.cast_def]
    congr 1
    exact_mod_cast ha.symm
  have h1 : (q : ℝ) = ((q.num.toNat * q.den : ℕ) : ℝ) / ((q.den : ℝ)) ^ 2 := by
    rw [hcast]
    push_cast
    field_simp
    ring
  have h2 : Real.sqrt (q : ℝ) = Real.sqrt ((q.num.toNat * q.den : ℕ) : ℝ) / (q.den : ℝ) := by
    rw [h1, Real.sqrt_div (by positivity), Real.sqrt_sq hbR.le]
  have h3 : ⌊Real.sqrt (q : ℝ)⌋₊ = ⌊Real.sqrt ((q.num.toNat * q.den : ℕ) : ℝ)⌋₊ / q.den := by
    rw [h2, Nat.floor_div_nat]
  have h4 : ⌊Real.sqrt ((q.num.toNat * q.den : ℕ) : ℝ)⌋₊ = Nat.sqrt (q.num.toNat * q.den) :=
    Real.nat_floor_real_sqrt_eq_nat_sqrt
  rw [← Int.natCast_floor_eq_floor (Real.sqrt_nonneg _), h3, h4]
  rfl

theorem pyDistMm_eq_floor (dx dz : ℚ) :
    pyDistMm dx dz = ⌊(1000 : ℝ) * Real.sqrt (((dx : ℝ)) ^ 2 + ((dz : ℝ)) ^ 2)⌋ := by
  have hs : (0 : ℚ) ≤ 1000000 * (dx ^ 2 + dz ^ 2) := by positivity
  have h1 : pyDistMm dx dz = ⌊Real.sqrt (((1000000 * (dx ^ 2 + dz ^ 2) : ℚ) : ℝ))⌋ :=
    ratSqrtFloorNat_eq _ hs
  rw [h1]
  congr 1
  have hcast : ((1000000 * (dx ^ 2 + dz ^ 2) : ℚ) : ℝ) =
      (1000 : ℝ) ^ 2 * (((dx : ℝ)) ^ 2 + ((dz : ℝ)) ^ 2) := by
    push_cast
    ring
  rw [hcast, Real.sqrt_mul (by positivity), Real.sqrt_sq (by norm_num)]

/-- The Python exceptions the script can raise while loading and framing:
`IndexError` (missing field / empty-array column access) and `ValueError`
(non-numeric field passed to `float()`). -/
inductive PyErr where
  | indexError : PyErr
  | valueError : PyErr
deriving DecidableEq, Repr

/-- Whitespace tokenizer: Python `str.split()` with no argument (splits on
whitespace runs, drops empty tokens).  `line.strip()` before it is redundant
and therefore not modelled separately. -/
def splitWsAux : List Char → List Char → List (List Char)
  | [], acc => if acc.isEmpty then [] else [acc.reverse]
  | ch :: cs, acc =>
    if ch.isWhitespace then
      if acc.isEmpty then splitWsAux cs [] else acc.reverse :: splitWsAux cs []
    else splitWsAux cs (ch :: acc)

/-- `line.strip().split()` of line 22 of the script. -/
def pySplit (s : String) : List (List Char) := splitWsAux s.toList []

/-- Value of a digit string (most significant first). -/
def digitsVal (cs : List Char) : ℕ := cs.foldl (fun a ch => a * 10 + (ch.toNat - 48)) 0

/-- Exponent part accepted by Python `float()`: optional sign, then digits. -/
def pyExp : List Char → Option ℤ := fun cs =>
  let sgn : ℤ := match cs with
    | '-' :: _ => -1
    | _ => 1
  let cs1 : List Char := match cs with
    | '+' :: t => t
    | '-' :: t => t
    | t => t
  let ds := cs1.takeWhile Char.isDigit
  if ds.isEmpty || !(cs1.dropWhile Char.isDigit).isEmpty then none
  else some (sgn * (digitsVal ds : ℤ))

/-- Python `float()` on a token, for the finite decimal / scientific literals
an OBJ file can carry: optional sign, digits with an optional fractional
part (at least one digit overall), optional `e`/`E` exponent.  A token
outside this grammar is a `ValueError` (`none` here). -/
def pyFloat (cs : List Char) : Option ℚ :=
  let sgn : ℚ := match cs with
    | '-' :: _ => -1
    | _ => 1
  let cs1 : List Char := match cs with
    | '+' :: t => t
    | '-' :: t => t
    | t => t
  let ip := cs1.takeWhile Char.isDigit
  let r1 := cs1.dropWhile Char.isDigit
  let fp : List Char := match r1 with
    | '.' :: t => t.takeWhile Char.isDigit
    | _ => []
  let r2 : List Char := match r1 with
    | '.' :: t => t.dropWhile Char.isDigit
    | _ => r1
  if ip.isEmpty && fp.isEmpty then none
  else
    let mant : ℚ := sgn * ((digitsVal ip : ℚ) + (digitsVal fp : ℚ) / 10 ^ fp.length)
    match r2 with
    | [] => some mant
    | 'e' :: t => (pyExp t).map (fun k => mant * 10 ^ k)
    | 'E' :: t => (pyExp t).map (fun k => mant * 10 ^ k)
    | _ => none

/-- `parts[i]`: a missing index raises `IndexError`. -/
def pyIndex (parts : List (List Char)) (i : ℕ) : Except PyErr (List Char) :=
  match parts.get? i with
  | some s => Except.ok s
  | none => Except.error PyErr.indexError

/-- `float(parts[i])`: a non-numeric field raises `ValueError`. -/
def pyFloatE (s : List Char) : Except PyErr ℚ :=
  match pyFloat s with
  | some q => Except.ok q
  | none => Except.error PyErr.valueError

/-- `line.startswith("v ")` of line 21: the first two characters are `v` and
a space. -/
def isVertexLine (line : String) : Bool :=
  match line.toList with
  | 'v' :: ' ' :: _ => true
  | _ => false

/-- `[float(parts[1]), float(parts[2]), float(parts[3])]` of line 23, with
Python's evaluation order: index 1, float, index 2, float, index 3, float. -/
def parse_vertex_line (line : String) : Except PyErr Vertex := do
  let parts := pySplit line
  let s1 ← pyIndex parts 1
  let q1 ← pyFloatE s1
  let s2 ← pyIndex parts 2
  let q2 ← pyFloatE s2
  let s3 ← pyIndex parts 3
  let q3 ← pyFloatE s3
  pure { x := q1, y := q2, z := q3 }

/-- `load_obj_vertices` (lines 16-24): accumulate a vertex for every line
starting with the marker; any exception from a malformed vertex line
propagates (there is no try/except in the source). -/
def load_obj_vertices : List String → Except PyErr (List Vertex)
  | [] => Except.ok []
  | line :: rest =>
    if isVertexLine line then
      match parse_vertex_line line with
      | Except.error e => Except.error e
      | Except.ok v => (load_obj_vertices rest).map (fun tail => v :: tail)
    else load_obj_vertices rest

/-- One entry of an axis histogram in `detailed_data` (bin center, count). -/
structure HistEntry where
  center : ℚ
  count : ℕ
deriving DecidableEq, Repr

/-- Lower edge used by `np.histogram`; on a zero-range column numpy expands
the range to `(min - 0.5, max + 0.5)`. -/
def npHistLo (values : List ℚ) : ℚ :=
  if npMin values = npMax values then npMin values - 0.5 else npMin values

/-- Upper edge used by `np.histogram` (see `npHistLo`). -/
def npHistHi (values : List ℚ) : ℚ :=
  if npMin values = npMax values then npMax values + 0.5 else npMax values

/-- The `i`-th of the `bins + 1` equally spaced edges of `np.histogram`. -/
def histEdge (values : List ℚ) (bins i : ℕ) : ℚ :=
  npHistLo values + i * (npHistHi values - npHistLo values) / bins

/-- `np.histogram(values, bins)` paired with the bin centers, as stored in
`detailed_data` (lines 370-389): half-open bins, the last bin closed. -/
def npHistogram (values : List ℚ) (bins : ℕ) : List HistEntry :=
  (List.range bins).map (fun i =>
    { center := (histEdge values bins i + histEdge values bins (i + 1)) / 2
      count :=
        if i + 1 = bins then
          values.countP (fun v => decide (histEdge values bins i ≤ v) &&
            decide (v ≤ histEdge values bins bins))
        else
          values.countP (fun v => decide (histEdge values bins i ≤ v) &&
            decide (v < histEdge values bins (i + 1))) })

/-- One non-empty cell of the 0.1 m (x, z) density grid. -/
structure DensityCell where
  x_m : ℚ
  z_m : ℚ
  count : ℕ
deriving DecidableEq, Repr

/-- Length of `np.arange(start, stop, step)` for positive step. -/
def npArangeLen (start stop step : ℚ) : ℕ := (⌈(stop - start) / step⌉).toNat

/-- The `xz_density_map_10cm_grid` loop (lines 350-368): for every pair of
consecutive `arange` bins, count the points of the half-open cell and record
its center when the count is positive. -/
def densityMap (vs : List Vertex) (f : RoomFrame) : List DensityCell :=
  let g : ℚ := 0.1
  let nx := npArangeLen f.left_x (f.right_x + g) g
  let nz := npArangeLen f.front_z (f.back_z + g) g
  (List.range (nx - 1)).flatMap (fun i =>
    (List.range (nz - 1)).filterMap (fun j =>
      let count := vs.countP (fun v =>
        decide (f.left_x + (i : ℚ) * g ≤ v.x) && decide (v.x < f.left_x + ((i : ℚ) + 1) * g) &&
        decide (f.front_z + (j : ℚ) * g ≤ v.z) && decide (v.z < f.front_z + ((j : ℚ) + 1) * g))
      if 0 < count then
        some { x_m := (f.left_x + (i : ℚ) * g + (f.left_x + ((i : ℚ) + 1) * g)) / 2
               z_m := (f.front_z + (j : ℚ) * g + (f.front_z + ((j : ℚ) + 1) * g)) / 2
               count := count }
      else none))

/-- Python slicing `l[::k]` (every `k`-th element starting at index 0). -/
def takeEvery (k : ℕ) (l : List Vertex) : List Vertex :=
  (l.enum.filter (fun pr => pr.1 % k == 0)).map (fun pr => pr.2)

/-- One entry of `detailed_data["horizontal_slices"]` (lines 398-407). -/
structure SliceEntry where
  vertex_count : ℕ
  x_min : ℚ
  x_max : ℚ
  z_min : ℚ
  z_max : ℚ
  sample_points : List (ℚ × ℚ)
deriving DecidableEq, Repr

/-- The strict `±0.05` band filter of line 396. -/
def sliceBand (vs : List Vertex) (slice_y : ℚ) : List Vertex :=
  vs.filter (fun v => decide (slice_y - 0.05 < v.y) && decide (v.y < slice_y + 0.05))

/-- The horizontal-slice loop (lines 392-407): offsets 0.5, 1.0, 1.5 above
the floor; an offset with no matches produces no entry; the sample is
`slice_verts[::max(1, len(slice_verts) // 50)]` projected to (x, z).  The
source keys entries by the string `f"{h}m_from_floor"`; the key is modelled
by the offset `h` itself. -/
def horizontalSlices (vs : List Vertex) (f : RoomFrame) : List (ℚ × SliceEntry) :=
  [(0.5 : ℚ), 1.0, 1.5].filterMap (fun h =>
    let slice_verts := sliceBand vs (f.floor_y + h)
    if 0 < slice_verts.length then
      some (h,
        { vertex_count := slice_verts.length
          x_min := npMin (slice_verts.map Vertex.x)
          x_max := npMax (slice_verts.map Vertex.x)
          z_min := npMin (slice_verts.map Vertex.z)
          z_max := npMax (slice_verts.map Vertex.z)
          sample_points := (takeEvery (max 1 (slice_verts.length / 50)) slice_verts).map
            (fun v => (v.x, v.z)) })
    else none)

/-- `np.linspace(0, n - 1, cnt, dtype=int)` for `cnt ≥ 1` (the region-sample
index computation of line 436; `cnt = 0` is unreachable because sampling only
runs for a positive count). -/
def npLinspaceIdx (n cnt : ℕ) : List ℕ :=
  if cnt ≤ 1 then [0]
  else (List.range cnt).map (fun i => (⌊((i : ℚ) * ((n - 1 : ℕ) : ℚ)) / ((cnt - 1 : ℕ) : ℚ)⌋).toNat)

/-- The `region_masks` dictionary plus the `front_wall_area` /
`back_wall_area` special cases of lines 410-432. -/
def maskForName (f : RoomFrame) (c : HeuristicConfig) : String → Option (Vertex → Bool)
  | "left_shelf" => some (left_shelf_mask f c)
  | "right_shelf" => some (right_shelf_mask f c)
  | "left_speaker" => some (left_speaker_mask f c)
  | "right_speaker" => some (right_speaker_mask f c)
  | "left_rack" => some (left_rack_mask f c)
  | "right_rack" => some (right_rack_mask f c)
  | "sofa_estimated" => some (sofa_mask f c)
  | "floor" => some (floor_mask f c)
  | "ceiling" => some (ceiling_mask f c)
  | "front_wall_area" => some (front_area_mask f c)
  | "back_wall_area" => some (back_area_mask f c)
  | _ => none

/-- The sample-attachment loop of lines 422-440: every region with a positive
count gets an evenly spaced sample of at most 30 of its member points. -/
def addRegionSamples (vs : List Vertex) (f : RoomFrame) (c : HeuristicConfig)
    (r : RegionRecord) : RegionRecord :=
  if 0 < r.vertex_count then
    match maskForName f c r.name with
    | some mask =>
      let region_verts := vs.filter mask
      let sample_count := min 30 region_verts.length
      let idxs := npLinspaceIdx region_verts.length sample_count
      let sample := idxs.map (fun i => region_verts.getD i { x := 0, y := 0, z := 0 })
      { r with sample_vertices := some sample }
    | none => r
  else r

/-- `result["room"]["dimensions_mm"]` (lines 105-109). -/
structure Dimensions where
  width_x : ℤ
  height_y : ℤ
  depth_z : ℤ
deriving DecidableEq, Repr

/-- `result["detailed_data"]` (lines 347-407). -/
structure DetailedData where
  xz_density_map_10cm_grid : List DensityCell
  x_histogram : List HistEntry
  z_histogram : List HistEntry
  y_histogram : List HistEntry
  horizontal_slices : List (ℚ × SliceEntry)
deriving DecidableEq, Repr

/-- The output document of one run: room metadata, the 11 region records
(with samples), the measurement map and the diagnostics.  The constant
free-text blocks (`_description`, `_coordinate_system`, `_reference`,
`_notes`) are fixed strings independent of the input and are not repeated
here. -/
structure Report where
  total_vertices : ℕ
  walls : RoomFrame
  dimensions_mm : Dimensions
  regions : List RegionRecord
  measurements : Measurements
  detailed_data : DetailedData

/-- `main` from the loaded vertex array onward (lines 74-448).  On an empty
array, `vertices[:, 1]` raises `IndexError` (a 1-D empty array has no second
axis) before any extremum is computed; otherwise the run is a pure function
of the cloud and the constants. -/
def mainResult (vertices : List Vertex) (c : HeuristicConfig) : Except PyErr Report :=
  if vertices.length = 0 then Except.error PyErr.indexError
  else
    let f := roomFrame vertices
    Except.ok
      { total_vertices := vertices.length
        walls := f
        dimensions_mm :=
          { width_x := pyInt ((f.right_x - f.left_x) * 1000)
            height_y := pyInt ((f.ceiling_y - f.floor_y) * 1000)
            depth_z := pyInt ((f.back_z - f.front_z) * 1000) }
        regions := (regionsOf vertices f c).map (addRegionSamples vertices f c)
        measurements := mainMeasurements vertices f c
        detailed_data :=
          { xz_density_map_10cm_grid := densityMap vertices f
            x_histogram := npHistogram (vertices.map Vertex.x) 30
            z_histogram := npHistogram (vertices.map Vertex.z) 40
            y_histogram := npHistogram (vertices.map Vertex.y) 30
            horizontal_slices := horizontalSlices vertices f } }

/-- The whole script: load, then analyze. -/
def mainFromLines (lines : List String) (c : HeuristicConfig) : Except PyErr Report :=
  match load_obj_vertices lines with
  | Except.error e => Except.error e
  | Except.ok vertices => mainResult vertices c

/-- C3 counterexample: on a source with no vertex lines the loader does NOT
fail: it returns the empty sequence successfully (there is no
`EmptyInputError` anywhere in the script), refuting the claim that the
loader itself raises an error on zero parsed vertices. -/
theorem c3_counterexample :
    load_obj_vertices ["# empty scan"] = Except.ok [] ∧
    ∀ e, load_obj_vertices ["# empty scan"] ≠ Except.error e := by
  constructor
  · rfl
  · intro e h
    rw [show load_obj_vertices ["# empty scan"] = Except.ok [] from rfl] at h
    exact Except.noConfusion h

/-- C3 (amended): a geometry source whose lines yield zero parsed vertices
loads successfully as the empty sequence (the loader raises nothing); the
run then aborts with an `IndexError` in `main`'s column access
`vertices[:, 1]`, before any room-frame extremum is computed. -/
theorem c3_empty_aborts_in_main (lines : List String) (c : HeuristicConfig)
    (h : load_obj_vertices lines = Except.ok []) :
    mainFromLines lines c = Except.error PyErr.indexError := by
  unfold mainFromLines
  rw [h]
  rfl

/-- Witness for the amended C3 at a concrete vertex-free source. -/
theorem c3_witness :
    mainFromLines ["# comment", "f 1 2 3"] defaultConfig = Except.error PyErr.indexError :=
  c3_empty_aborts_in_main ["# comment", "f 1 2 3"] defaultConfig rfl

/-- C4 counterexample: a vertex line with a non-numeric field is not skipped;
the loader aborts with a `ValueError`, so the well-formed remainder of the
source is never returned, refuting the silent-skip claim. -/
theorem c4_counterexample :
    load_obj_vertices ["v a 0 0", "v 1 2 3"] = Except.error PyErr.valueError ∧
    load_obj_vertices ["v a 0 0", "v 1 2 3"] ≠
      Except.ok [{ x := 1, y := 2, z := 3 }] := by
  constructor
  · rfl
  · intro h
    rw [show load_obj_vertices ["v a 0 0", "v 1 2 3"] = Except.error PyErr.valueError
      from rfl] at h
    exact Except.noConfusion h

/-- C4 (amended): a line that starts with the vertex marker but does not
parse (non-numeric field, or fewer than three fields) makes the loader raise
an error (`ValueError` / `IndexError`); the load aborts instead of skipping
the line. -/
theorem c4_malformed_line_aborts (lines : List String) (l : String)
    (hmem : l ∈ lines) (hv : isVertexLine l = true)
    (hbad : ∃ e, parse_vertex_line l = Except.error e) :
    ∃ e, load_obj_vertices lines = Except.error e := by
  induction lines with
  | nil => cases hmem
  | cons a rest ih =>
    rcases List.mem_cons.mp hmem with hla | hmem2
    · obtain ⟨e, he⟩ := hbad
      refine ⟨e, ?_⟩
      rw [← hla] at *
      unfold load_obj_vertices
      rw [if_pos hv, he]
    · obtain ⟨e, he⟩ := ih hmem2
      by_cases hva : isVertexLine a = true
      · cases hp : parse_vertex_line a with
        | error e2 =>
          refine ⟨e2, ?_⟩
          unfold load_obj_vertices
          rw [if_pos hva, hp]
        | ok v =>
          refine ⟨e, ?_⟩
          unfold load_obj_vertices
          rw [if_pos hva, hp, he]
          rfl
      · refine ⟨e, ?_⟩
        unfold load_obj_vertices
        rw [if_neg hva]
        exact he

/-- Witness for the amended C4 at a concrete malformed source. -/
theorem c4_witness : ∃ e, load_obj_vertices ["# top", "v 1 q 3"] = Except.error e :=
  c4_malformed_line_aborts ["# top", "v 1 q 3"] "v 1 q 3" (by decide) (by decide)
    ⟨PyErr.valueError, rfl⟩

/-- C5: a region with zero matching points degrades to the name-and-count
stub (no bounds, centroid or size), every measurement keyed solely on that
region (`left_speaker`, `right_speaker`, `left_shelf`, `right_shelf`,
`left_rack`, `right_rack`, and `listening_point` for `sofa_estimated`) is
absent from the measurement map, and no error is raised: on a non-empty
cloud the run still returns a report. -/
theorem c5_empty_region_guard (vs : List Vertex) (f : RoomFrame) (c : HeuristicConfig)
    (p : Vertex → Bool) (name : String) (hp : vs.countP p = 0) :
    analyze_region (vs.filter p) name = { name := name, vertex_count := 0 } ∧
    (vs.countP (left_speaker_mask f c) = 0 → (mainMeasurements vs f c).left_speaker = none) ∧
    (vs.countP (right_speaker_mask f c) = 0 → (mainMeasurements vs f c).right_speaker = none) ∧
    (vs.countP (left_shelf_mask f c) = 0 → (mainMeasurements vs f c).left_shelf = none) ∧
    (vs.countP (right_shelf_mask f c) = 0 → (mainMeasurements vs f c).right_shelf = none) ∧
    (vs.countP (left_rack_mask f c) = 0 → (mainMeasurements vs f c).left_rack = none) ∧
    (vs.countP (right_rack_mask f c) = 0 → (mainMeasurements vs f c).right_rack = none) ∧
    (vs.countP (sofa_mask f c) = 0 → (mainMeasurements vs f c).listening_point = none) ∧
    (vs.length ≠ 0 → ∃ rep, mainResult vs c = Except.ok rep) := by
  have hstub : vs.filter p = [] := by
    rw [List.filter_eq_nil_iff]
    exact List.countP_eq_zero.mp hp
  refine ⟨by rw [hstub]; rfl, ?_, ?_, ?_, ?_, ?_, ?_, ?_, ?_⟩
  · intro h0
    simp [mainMeasurements, vertex_count_eq_countP, h0]
  · intro h0
    simp [mainMeasurements, vertex_count_eq_countP, h0]
  · intro h0
    simp [mainMeasurements, vertex_count_eq_countP, h0]
  · intro h0
    simp [mainMeasurements, vertex_count_eq_countP, h0]
  · intro h0
    simp [mainMeasurements, vertex_count_eq_countP, h0]
  · intro h0
    simp [mainMeasurements, vertex_count_eq_countP, h0]
  · intro h0
    simp [mainMeasurements, vertex_count_eq_countP, h0]
  · intro hlen
    exact ⟨_, by unfold mainResult; exact if_neg hlen⟩

/-- The always-false predicate used by the C5 witness. -/
def pNone : Vertex → Bool := fun _ => false

/-- Witness for C5: on `cloud2` the sofa region is empty, so the
`listening_point` key is absent, the all-false region is a stub, and the run
still succeeds. -/
theorem c5_witness :
    analyze_region (cloud2.filter pNone) "empty" = { name := "empty", vertex_count := 0 } ∧
    (mainMeasurements cloud2 (roomFrame cloud2) defaultConfig).listening_point = none ∧
    (∃ rep, mainResult cloud2 defaultConfig = Except.ok rep) :=
  ⟨(c5_empty_region_guard cloud2 (roomFrame cloud2) defaultConfig pNone "empty" (by decide)).1,
   (c5_empty_region_guard cloud2 (roomFrame cloud2) defaultConfig pNone "empty"
      (by decide)).2.2.2.2.2.2.2.1 (by decide),
   (c5_empty_region_guard cloud2 (roomFrame cloud2) defaultConfig pNone "empty"
      (by decide)).2.2.2.2.2.2.2.2 (by decide)⟩

theorem countP_mono_of_imp (vs : List Vertex) (p q : Vertex → Bool)
    (h : ∀ v, p v = true → q v = true) : vs.countP p ≤ vs.countP q := by
  induction vs with
  | nil => simp
  | cons a t ih =>
    rw [List.countP_cons, List.countP_cons]
    have hqv : (if p a = true then 1 else 0) ≤ (if q a = true then 1 else 0) := by
      by_cases hp : p a = true
      · simp [hp, h a hp]
      · simp [hp]
    omega

/-- C6 (amended): with everything else fixed, increasing a single tolerance
margin that relaxes a bound of its predicate (the wall-area bands, the shelf
depth/inner/outer margins, the speaker margin, the rack x-margins, the floor
and ceiling bands) never decreases that region's matched point count; the one
exception in the source is the racks' baffle-exclusion margin
(`z < baffle_z - 0.02`), which is antitone: increasing it never increases the
rack's matched point count. -/
theorem c6_margin_monotonicity (f : RoomFrame) (c : HeuristicConfig)
    (vs : List Vertex) (m m' : ℚ) (hm : m ≤ m') :
    (vs.countP (front_area_mask f { c with front_band := m }) ≤
      vs.countP (front_area_mask f { c with front_band := m' })) ∧
    (vs.countP (back_area_mask f { c with back_band := m }) ≤
      vs.countP (back_area_mask f { c with back_band := m' })) ∧
    (vs.countP (left_shelf_mask f { c with shelf_depth_margin := m }) ≤
      vs.countP (left_shelf_mask f { c with shelf_depth_margin := m' })) ∧
    (vs.countP (right_shelf_mask f { c with shelf_depth_margin := m }) ≤
      vs.countP (right_shelf_mask f { c with shelf_depth_margin := m' })) ∧
    (vs.countP (left_shelf_mask f { c with shelf_inner_margin := m }) ≤
      vs.countP (left_shelf_mask f { c with shelf_inner_margin := m' })) ∧
    (vs.countP (right_shelf_mask f { c with shelf_inner_margin := m }) ≤
      vs.countP (right_shelf_mask f { c with shelf_inner_margin := m' })) ∧
    (vs.countP (left_shelf_mask f { c with shelf_outer_margin := m }) ≤
      vs.countP (left_shelf_mask f { c with shelf_outer_margin := m' })) ∧
    (vs.countP (right_shelf_mask f { c with shelf_outer_margin := m }) ≤
      vs.countP (right_shelf_mask f { c with shelf_outer_margin := m' })) ∧
    (vs.countP (left_speaker_mask f { c with speaker_margin := m }) ≤
      vs.countP (left_speaker_mask f { c with speaker_margin := m' })) ∧
    (vs.countP (right_speaker_mask f { c with speaker_margin := m }) ≤
      vs.countP (right_speaker_mask f { c with speaker_margin := m' })) ∧
    (vs.countP (left_rack_mask f { c with rack_inner_margin := m }) ≤
      vs.countP (left_rack_mask f { c with rack_inner_margin := m' })) ∧
    (vs.countP (right_rack_mask f { c with rack_inner_margin := m }) ≤
      vs.countP (right_rack_mask f { c with rack_inner_margin := m' })) ∧
    (vs.countP (left_rack_mask f { c with rack_outer_margin := m }) ≤
      vs.countP (left_rack_mask f { c with rack_outer_margin := m' })) ∧
    (vs.countP (right_rack_mask f { c with rack_outer_margin := m }) ≤
      vs.countP (right_rack_mask f { c with rack_outer_margin := m' })) ∧
    (vs.countP (floor_mask f { c with floor_band := m }) ≤
      vs.countP (floor_mask f { c with floor_band := m' })) ∧
    (vs.countP (ceiling_mask f { c with ceiling_band := m }) ≤
      vs.countP (ceiling_mask f { c with ceiling_band := m' })) ∧
    (vs.countP (left_rack_mask f { c with rack_baffle_margin := m' }) ≤
      vs.countP (left_rack_mask f { c with rack_baffle_margin := m })) ∧
    (vs.countP (right_rack_mask f { c with rack_baffle_margin := m' }) ≤
      vs.countP (right_rack_mask f { c with rack_baffle_margin := m })) := by
  refine ⟨?_, ?_, ?_, ?_, ?_, ?_, ?_, ?_, ?_, ?_, ?_, ?_, ?_, ?_, ?_, ?_, ?_, ?_⟩
  · exact countP_mono_of_imp vs _ _ (fun v hv => by
      simp only [front_area_mask, decide_eq_true_eq] at hv ⊢
      linarith)
  · exact countP_mono_of_imp vs _ _ (fun v hv => by
      simp only [back_area_mask, decide_eq_true_eq] at hv ⊢
      linarith)
  · exact countP_mono_of_imp vs _ _ (fun v hv => by
      simp only [left_shelf_mask, baffle_z, left_spk_x_inner, left_spk_x_outer, shelf_top_y,
        Bool.and_eq_true, decide_eq_true_eq] at hv ⊢
      obtain ⟨⟨⟨⟨h1, h2⟩, h3⟩, h4⟩, h5⟩ := hv
      exact ⟨⟨⟨⟨by linarith, by linarith⟩, by linarith⟩, by linarith⟩, by linarith⟩)
  · exact countP_mono_of_imp vs _ _ (fun v hv => by
      simp only [right_shelf_mask, baffle_z, right_spk_x_inner, right_spk_x_outer,
        shelf_top_y, Bool.and_eq_true, decide_eq_true_eq] at hv ⊢
      obtain ⟨⟨⟨⟨h1, h2⟩, h3⟩, h4⟩, h5⟩ := hv
      exact ⟨⟨⟨⟨by linarith, by linarith⟩, by linarith⟩, by linarith⟩, by linarith⟩)
  · exact countP_mono_of_imp vs _ _ (fun v hv => by
      simp only [left_shelf_mask, baffle_z, left_spk_x_inner, left_spk_x_outer, shelf_top_y,
        Bool.and_eq_true, decide_eq_true_eq] at hv ⊢
      obtain ⟨⟨⟨⟨h1, h2⟩, h3⟩, h4⟩, h5⟩ := hv
      exact ⟨⟨⟨⟨by linarith, by linarith⟩, by linarith⟩, by linarith⟩, by linarith⟩)
  · exact countP_mono_of_imp vs _ _ (fun v hv => by
      simp only [right_shelf_mask, baffle_z, right_spk_x_inner, right_spk_x_outer,
        shelf_top_y, Bool.and_eq_true, decide_eq_true_eq] at hv ⊢
      obtain ⟨⟨⟨⟨h1, h2⟩, h3⟩, h4⟩, h5⟩ := hv
      exact ⟨⟨⟨⟨by linarith, by linarith⟩, by linarith⟩, by linarith⟩, by linarith⟩)
  · exact countP_mono_of_imp vs _ _ (fun v hv => by
      simp only [left_shelf_mask, baffle_z, left_spk_x_inner, left_spk_x_outer, shelf_top_y,
        Bool.and_eq_true, decide_eq_true_eq] at hv ⊢
      obtain ⟨⟨⟨⟨h1, h2⟩, h3⟩, h4⟩, h5⟩ := hv
      exact ⟨⟨⟨⟨by linarith, by linarith⟩, by linarith⟩, by linarith⟩, by linarith⟩)
  · exact countP_mono_of_imp vs _ _ (fun v hv => by
      simp only [right_shelf_mask, baffle_z, right_spk_x_inner, right_spk_x_outer,
        shelf_top_y, Bool.and_eq_true, decide_eq_true_eq] at hv ⊢
      obtain ⟨⟨⟨⟨h1, h2⟩, h3⟩, h4⟩, h5⟩ := hv
      exact ⟨⟨⟨⟨by linarith, by linarith⟩, by linarith⟩, by linarith⟩, by linarith⟩)
  · exact countP_mono_of_imp vs _ _ (fun v hv => by
      simp only [left_speaker_mask, baffle_z, left_spk_x_inner, left_spk_x_outer,
        shelf_top_y, speaker_top_y, Bool.and_eq_true, decide_eq_true_eq] at hv ⊢
      obtain ⟨⟨⟨⟨⟨h1, h2⟩, h3⟩, h4⟩, h5⟩, h6⟩ := hv
      exact ⟨⟨⟨⟨⟨by linarith, by linarith⟩, by linarith⟩, by linarith⟩, by linarith⟩,
        by linarith⟩)
  · exact countP_mono_of_imp vs _ _ (fun v hv => by
      simp only [right_speaker_mask, baffle_z, right_spk_x_inner, right_spk_x_outer,
        shelf_top_y, speaker_top_y, Bool.and_eq_true, decide_eq_true_eq] at hv ⊢
      obtain ⟨⟨⟨⟨⟨h1, h2⟩, h3⟩, h4⟩, h5⟩, h6⟩ := hv
      exact ⟨⟨⟨⟨⟨by linarith, by linarith⟩, by linarith⟩, by linarith⟩, by linarith⟩,
        by linarith⟩)
  · exact countP_mono_of_imp vs _ _ (fun v hv => by
      simp only [left_rack_mask, baffle_z, left_spk_x_inner, left_spk_x_outer, shelf_top_y,
        Bool.and_eq_true, decide_eq_true_eq] at hv ⊢
      obtain ⟨⟨⟨⟨h1, h2⟩, h3⟩, h4⟩, h5⟩ := hv
      exact ⟨⟨⟨⟨by linarith, by linarith⟩, by linarith⟩, by linarith⟩, by linarith⟩)
  · exact countP_mono_of_imp vs _ _ (fun v hv => by
      simp only [right_rack_mask, baffle_z, right_spk_x_inner, right_spk_x_outer,
        shelf_top_y, Bool.and_eq_true, decide_eq_true_eq] at hv ⊢
      obtain ⟨⟨⟨⟨h1, h2⟩, h3⟩, h4⟩, h5⟩ := hv
      exact ⟨⟨⟨⟨by linarith, by linarith⟩, by linarith⟩, by linarith⟩, by linarith⟩)
  · exact countP_mono_of_imp vs _ _ (fun v hv => by
      simp only [left_rack_mask, baffle_z, left_spk_x_inner, left_spk_x_outer, shelf_top_y,
        Bool.and_eq_true, decide_eq_true_eq] at hv ⊢
      obtain ⟨⟨⟨⟨h1, h2⟩, h3⟩, h4⟩, h5⟩ := hv
      exact ⟨⟨⟨⟨by linarith, by linarith⟩, by linarith⟩, by linarith⟩, by linarith⟩)
  · exact countP_mono_of_imp vs _ _ (fun v hv => by
      simp only [right_rack_mask, baffle_z, right_spk_x_inner, right_spk_x_outer,
        shelf_top_y, Bool.and_eq_true, decide_eq_true_eq] at hv ⊢
      obtain ⟨⟨⟨⟨h1, h2⟩, h3⟩, h4⟩, h5⟩ := hv
      exact ⟨⟨⟨⟨by linarith, by linarith⟩, by linarith⟩, by linarith⟩, by linarith⟩)
  · exact countP_mono_of_imp vs _ _ (fun v hv => by
      simp only [floor_mask, decide_eq_true_eq] at hv ⊢
      linarith)
  · exact countP_mono_of_imp vs _ _ (fun v hv => by
      simp only [ceiling_mask, decide_eq_true_eq] at hv ⊢
      linarith)
  · exact countP_mono_of_imp vs _ _ (fun v hv => by
      simp only [left_rack_mask, baffle_z, left_spk_x_inner, left_spk_x_outer, shelf_top_y,
        Bool.and_eq_true, decide_eq_true_eq] at hv ⊢
      obtain ⟨⟨⟨⟨h1, h2⟩, h3⟩, h4⟩, h5⟩ := hv
      exact ⟨⟨⟨⟨by linarith, by linarith⟩, by linarith⟩, by linarith⟩, by linarith⟩)
  · exact countP_mono_of_imp vs _ _ (fun v hv => by
      simp only [right_rack_mask, baffle_z, right_spk_x_inner, right_spk_x_outer,
        shelf_top_y, Bool.and_eq_true, decide_eq_true_eq] at hv ⊢
      obtain ⟨⟨⟨⟨h1, h2⟩, h3⟩, h4⟩, h5⟩ := hv
      exact ⟨⟨⟨⟨by linarith, by linarith⟩, by linarith⟩, by linarith⟩, by linarith⟩)

/-- A fixed frame used by the C6 and C8 witnesses: floor 0, ceiling 3 m,
front wall 0, back wall 4 m, left wall 0, right wall 4 m. -/
def frameA : RoomFrame :=
  { floor_y := 0, ceiling_y := 3, front_z := 0, back_z := 4, left_x := 0, right_x := 4 }

/-- A point inside the default left-rack region, 25.5 cm in front of the
baffle anchor at 28 cm. -/
def vRack : Vertex := { x := 0.3, y := 1, z := 0.255 }

/-- C6 counterexample: both margins 0.02 (the source value) and 0.03 are
non-negative and 0.02 ≤ 0.03, yet increasing the left rack's baffle margin
from 0.02 to 0.03 shrinks the matched set: `vRack` is matched at 0.02 and
not at 0.03, so the vertex count decreases from 1 to 0 — refuting
monotonicity for that margin as the claim universally states it. -/
theorem c6_counterexample :
    (0 : ℚ) ≤ defaultConfig.rack_baffle_margin ∧
    defaultConfig.rack_baffle_margin ≤ (0.03 : ℚ) ∧
    [vRack].countP (left_rack_mask frameA defaultConfig) = 1 ∧
    [vRack].countP (left_rack_mask frameA
      { defaultConfig with rack_baffle_margin := 0.03 }) = 0 := by
  refine ⟨by decide, by decide, by decide, by decide⟩

/-- Witness for the amended C6 at concrete data: frame `frameA`, the default
constants, the one-point cloud `[vRack]`, margins 0.01 ≤ 0.02. -/
theorem c6_witness :
    ([vRack].countP (front_area_mask frameA { defaultConfig with front_band := 0.01 }) ≤
      [vRack].countP (front_area_mask frameA { defaultConfig with front_band := 0.02 })) ∧
    ([vRack].countP (back_area_mask frameA { defaultConfig with back_band := 0.01 }) ≤
      [vRack].countP (back_area_mask frameA { defaultConfig with back_band := 0.02 })) ∧
    ([vRack].countP (left_shelf_mask frameA { defaultConfig with shelf_depth_margin := 0.01 }) ≤
      [vRack].countP (left_shelf_mask frameA { defaultConfig with shelf_depth_margin := 0.02 })) ∧
    ([vRack].countP (right_shelf_mask frameA { defaultConfig with shelf_depth_margin := 0.01 }) ≤
      [vRack].countP (right_shelf_mask frameA { defaultConfig with shelf_depth_margin := 0.02 })) ∧
    ([vRack].countP (left_shelf_mask frameA { defaultConfig with shelf_inner_margin := 0.01 }) ≤
      [vRack].countP (left_shelf_mask frameA { defaultConfig with shelf_inner_margin := 0.02 })) ∧
    ([vRack].countP (right_shelf_mask frameA { defaultConfig with shelf_inner_margin := 0.01 }) ≤
      [vRack].countP (right_shelf_mask frameA { defaultConfig with shelf_inner_margin := 0.02 })) ∧
    ([vRack].countP (left_shelf_mask frameA { defaultConfig with shelf_outer_margin := 0.01 }) ≤
      [vRack].countP (left_shelf_mask frameA { defaultConfig with shelf_outer_margin := 0.02 })) ∧
    ([vRack].countP (right_shelf_mask frameA { defaultConfig with shelf_outer_margin := 0.01 }) ≤
      [vRack].countP (right_shelf_mask frameA { defaultConfig with shelf_outer_margin := 0.02 })) ∧
    ([vRack].countP (left_speaker_mask frameA { defaultConfig with speaker_margin := 0.01 }) ≤
      [vRack].countP (left_speaker_mask frameA { defaultConfig with speaker_margin := 0.02 })) ∧
    ([vRack].countP (right_speaker_mask frameA { defaultConfig with speaker_margin := 0.01 }) ≤
      [vRack].countP (right_speaker_mask frameA { defaultConfig with speaker_margin := 0.02 })) ∧
    ([vRack].countP (left_rack_mask frameA { defaultConfig with rack_inner_margin := 0.01 }) ≤
      [vRack].countP (left_rack_mask frameA { defaultConfig with rack_inner_margin := 0.02 })) ∧
    ([vRack].countP (right_rack_mask frameA { defaultConfig with rack_inner_margin := 0.01 }) ≤
      [vRack].countP (right_rack_mask frameA { defaultConfig with rack_inner_margin := 0.02 })) ∧
    ([vRack].countP (left_rack_mask frameA { defaultConfig with rack_outer_margin := 0.01 }) ≤
      [vRack].countP (left_rack_mask frameA { defaultConfig with rack_outer_margin := 0.02 })) ∧
    ([vRack].countP (right_rack_mask frameA { defaultConfig with rack_outer_margin := 0.01 }) ≤
      [vRack].countP (right_rack_mask frameA { defaultConfig with rack_outer_margin := 0.02 })) ∧
    ([vRack].countP (floor_mask frameA { defaultConfig with floor_band := 0.01 }) ≤
      [vRack].countP (floor_mask frameA { defaultConfig with floor_band := 0.02 })) ∧
    ([vRack].countP (ceiling_mask frameA { defaultConfig with ceiling_band := 0.01 }) ≤
      [vRack].countP (ceiling_mask frameA { defaultConfig with ceiling_band := 0.02 })) ∧
    ([vRack].countP (left_rack_mask frameA { defaultConfig with rack_baffle_margin := 0.02 }) ≤
      [vRack].countP (left_rack_mask frameA { defaultConfig with rack_baffle_margin := 0.01 })) ∧
    ([vRack].countP (right_rack_mask frameA { defaultConfig with rack_baffle_margin := 0.02 }) ≤
      [vRack].countP (right_rack_mask frameA { defaultConfig with rack_baffle_margin := 0.01 })) :=
  c6_margin_monotonicity frameA defaultConfig [vRack] 0.01 0.02 (by norm_num)

/-- C7: the pipeline from the loaded cloud onward is deterministic — two
runs over an identical point cloud and identical heuristic configuration
produce an identical output document (same frame-derived room data, regions,
measurements, and diagnostics); the model is a pure function of the cloud
and the configuration, as the source reads no other state after the load. -/
theorem c7_deterministic (vs1 vs2 : List Vertex) (c1 c2 : HeuristicConfig)
    (hv : vs1 = vs2) (hc : c1 = c2) :
    mainResult vs1 c1 = mainResult vs2 c2 := by
  rw [hv, hc]

/-- Witness for C7 at the concrete cloud `cloud2`. -/
theorem c7_witness : mainResult cloud2 defaultConfig = mainResult cloud2 defaultConfig :=
  c7_deterministic cloud2 cloud2 defaultConfig defaultConfig rfl rfl

/-- C8: whenever the sofa region is non-empty and both speaker regions are
non-empty, `measurements.listening_point.from_speaker_center_mm` is present
and equals the planar (X-Z) Euclidean distance from the sofa centroid to the
midpoint of the two speaker centroids, multiplied by 1000 and truncated
toward zero (the floor of the nonnegative real distance); when either
speaker region is empty, the key is absent (the listening point carries no
`from_speaker_center_mm` value). -/
theorem c8_listening_distance (vs : List Vertex) (f : RoomFrame) (c : HeuristicConfig)
    (hs : vs.countP (sofa_mask f c) ≠ 0) :
    (0 < vs.countP (left_speaker_mask f c) → 0 < vs.countP (right_speaker_mask f c) →
      ∃ lp : ListeningPoint, (mainMeasurements vs f c).listening_point = some lp ∧
        ∃ d : ℤ, lp.from_speaker_center_mm = some d ∧
          d = ⌊(1000 : ℝ) * Real.sqrt
            ((((npMean ((vs.filter (sofa_mask f c)).map Vertex.x) -
                (npMean ((vs.filter (left_speaker_mask f c)).map Vertex.x) +
                 npMean ((vs.filter (right_speaker_mask f c)).map Vertex.x)) / 2 : ℚ) : ℝ)) ^ 2 +
             (((npMean ((vs.filter (sofa_mask f c)).map Vertex.z) -
                (npMean ((vs.filter (left_speaker_mask f c)).map Vertex.z) +
                 npMean ((vs.filter (right_speaker_mask f c)).map Vertex.z)) / 2 : ℚ) : ℝ)) ^ 2)⌋) ∧
    (vs.countP (left_speaker_mask f c) = 0 ∨ vs.countP (right_speaker_mask f c) = 0 →
      ∃ lp : ListeningPoint, (mainMeasurements vs f c).listening_point = some lp ∧
        lp.from_speaker_center_mm = none) := by
  have esofa : vs.countP (sofa_mask f c) = (vs.filter (sofa_mask f c)).length := by
    simp [List.countP_eq_length_filter]
  have eleft : vs.countP (left_speaker_mask f c) =
      (vs.filter (left_speaker_mask f c)).length := by
    simp [List.countP_eq_length_filter]
  have eright : vs.countP (right_speaker_mask f c) =
      (vs.filter (right_speaker_mask f c)).length := by
    simp [List.countP_eq_length_filter]
  have hsofaL : (vs.filter (sofa_mask f c)).length ≠ 0 := by omega
  constructor
  · intro hl hr
    have hlL : (vs.filter (left_speaker_mask f c)).length ≠ 0 := by omega
    have hrL : (vs.filter (right_speaker_mask f c)).length ≠ 0 := by omega
    simp only [mainMeasurements, vertex_count_eq_countP,
      analyze_region_stats_of_ne _ _ hsofaL, analyze_region_stats_of_ne _ _ hlL,
      analyze_region_stats_of_ne _ _ hrL, regionStats, Option.map_some']
    rw [if_pos (by omega : 0 < vs.countP (sofa_mask f c))]
    refine ⟨_, rfl, ?_⟩
    refine ⟨_, ?_, pyDistMm_eq_floor _ _⟩
    rw [if_pos (show 0 < vs.countP (left_speaker_mask f c) ∧
        0 < vs.countP (right_speaker_mask f c) from ⟨hl, hr⟩)]
  · intro h0
    have hneg : ¬(0 < vs.countP (left_speaker_mask f c) ∧
        0 < vs.countP (right_speaker_mask f c)) := by
      rcases h0 with h | h <;> omega
    simp only [mainMeasurements, vertex_count_eq_countP,
      analyze_region_stats_of_ne _ _ hsofaL, regionStats, Option.map_some']
    rw [if_pos (by omega : 0 < vs.countP (sofa_mask f c))]
    refine ⟨_, rfl, ?_⟩
    rw [if_neg hneg]

/-- A point inside the default left-speaker region relative to `frameA`. -/
def vSpkL : Vertex := { x := 0.3, y := 1, z := 0.4 }

/-- A point inside the default right-speaker region relative to `frameA`. -/
def vSpkR : Vertex := { x := 3.6, y := 1, z := 0.4 }

/-- A point inside the default sofa region relative to `frameA`. -/
def vSofa : Vertex := { x := 2, y := 0.5, z := 3 }

/-- The three-point cloud of the C8 witness: one point in each of the
left-speaker, right-speaker and sofa regions. -/
def cloudC8 : List Vertex := [vSpkL, vSpkR, vSofa]

/-- Witness for C8 at `cloudC8` (all three source regions non-empty). -/
theorem c8_witness :
    ∃ lp : ListeningPoint,
      (mainMeasurements cloudC8 frameA defaultConfig).listening_point = some lp ∧
      ∃ d : ℤ, lp.from_speaker_center_mm = some d ∧
        d = ⌊(1000 : ℝ) * Real.sqrt
          ((((npMean ((cloudC8.filter (sofa_mask frameA defaultConfig)).map Vertex.x) -
              (npMean ((cloudC8.filter (left_speaker_mask frameA defaultConfig)).map Vertex.x) +
               npMean ((cloudC8.filter (right_speaker_mask frameA defaultConfig)).map
                 Vertex.x)) / 2 : ℚ) : ℝ)) ^ 2 +
           (((npMean ((cloudC8.filter (sofa_mask frameA defaultConfig)).map Vertex.z) -
              (npMean ((cloudC8.filter (left_speaker_mask frameA defaultConfig)).map Vertex.z) +
               npMean ((cloudC8.filter (right_speaker_mask frameA defaultConfig)).map
                 Vertex.z)) / 2 : ℚ) : ℝ)) ^ 2)⌋ :=
  (c8_listening_distance cloudC8 frameA defaultConfig (by decide)).1 (by decide) (by decide)

/-- The C9 failing input: one point at the floor (y = 0) plus 51 points at
y = 0.5, so the 0.5 m slice band matches exactly 51 points. -/
def cloud51 : List Vertex :=
  { x := 0, y := 0, z := 0 } ::
    (List.range 51).map (fun i => { x := (i : ℚ) / 100, y := 0.5, z := 1 })

set_option maxRecDepth 40000 in
/-- C9: evaluation of the horizontal-slice sampler at the failing input.
Only the 0.5 m offset matches (51 points; the 1.0 m and 1.5 m offsets are
omitted), but the "evenly spaced sample capped at 50 points" contains all
51 points: `slice_verts[::max(1, 51 // 50)]` is `slice_verts[::1]`.  This
contradicts the claim (and the source's own `最大50点サンプル` comment), so
the 50-point cap is a code bug, not a property of the code. -/
theorem c9_sample_cap_violated :
    (horizontalSlices cloud51 (roomFrame cloud51)).map
      (fun pr => (pr.1, pr.2.vertex_count, pr.2.sample_points.length)) =
      [(0.5, 51, 51)] := by decide
